import Mathlib

/-!
Shallow embedding of the k8s-namespace-guard admission webhook
(`listener.go`): the decision logic of `webhookHandler` and the
resource census of `validateNamespaceDeletion`, with the cluster-query
capabilities (namespace lookup, per-kind counters) passed in explicitly.
Go errors are modelled as `String` messages, fallible calls as `Except`
or an explicit result type.
-/

/-- The admission verdict written by `writeResponse`: the `Allowed`
boolean and the `Result.Reason` message. -/
structure Verdict where
  allowed : Bool
  reason : String
deriving DecidableEq

/-- Mirrors `v1.GroupVersionResource` (three string fields). -/
structure GroupVersionResource where
  group : String
  version : String
  resource : String
deriving DecidableEq

/-- `namespaceResourceType = v1.GroupVersionResource{Group: "", Version: "v1", Resource: "namespaces"}`. -/
def namespaceResourceType : GroupVersionResource :=
  ⟨"", "v1", "namespaces"⟩

/-- `bypassAnnotationKey` constant from `listener.go`. -/
def bypassAnnotationKey : String :=
  "k8s-namespace-guard.admission.yahoo.com/allow-cascade-delete"

/-- `admissionv1.Delete`, the operation string compared against in the
operation gate. -/
def deleteOperation : String := "DELETE"

/-- The fields of `admReview.Request` the decision logic reads:
`Operation`, `Resource`, `Name`. -/
structure AdmissionRequest where
  operation : String
  resource : GroupVersionResource
  name : String
deriving DecidableEq

/-- Result of `clientset.CoreV1().Namespaces().Get(name, ...)` as the
decision logic observes it: success carries the namespace's
annotations (`GetAnnotations()` may return a nil map, hence `Option`);
failure is split by `apiErrors.IsNotFound`. -/
inductive LookupResult where
  | found (annots : Option (List (String × String)))
  | notFound (msg : String)
  | otherError (msg : String)
deriving DecidableEq

/-- Go map indexing `m[k]` on a `map[string]string`: the stored value,
or the zero value `""` when the key is absent. -/
def mapGet (m : List (String × String)) (k : String) : String :=
  match m.lookup k with
  | some v => v
  | none => ""

/-- The bypass condition of `webhookHandler` lines 220-226: the
annotation map is non-nil and maps `bypassAnnotationKey` to exactly
`"true"`. -/
def bypassSet (annots : Option (List (String × String))) : Bool :=
  match annots with
  | some m => mapGet m bypassAnnotationKey == "true"
  | none => false

/-- Rendering of `fmt`'s `%v` for `v1.GroupVersionResource`, whose
`String()` method joins `Group, "/", Version, ", Resource=", Resource`. -/
def gvrString (r : GroupVersionResource) : String :=
  r.group ++ "/" ++ r.version ++ ", Resource=" ++ r.resource

/-- The `kind` labels of the fixed `counters` table in
`validateNamespaceDeletion`, in declaration order. -/
def monitoredKinds : List String :=
  ["pods", "services", "replicasets", "deployments", "statefulsets",
   "daemonsets", "ingresses", "horizontalpodautoscalers"]

/-- The two lists accumulated by the census loop of
`validateNamespaceDeletion`, kept as (kind, payload) pairs:
`nonEmptyKinds` records successful counts > 0, `failedKinds` records
per-kind query errors. -/
structure CensusResult where
  nonEmptyKinds : List (String × Nat)
  failedKinds : List (String × String)
deriving DecidableEq

/-- One iteration of the census loop (lines 138-147): on error append
to the failed list and continue; on a positive count append to the
non-empty list; on a zero count record nothing. The per-kind counter
capability `f` stands for the `podCounter`, `serviceCounter`, ...
functions, indexed by kind label. -/
def censusStep (f : String → String → Except String Nat) (ns : String)
    (acc : CensusResult) (kind : String) : CensusResult :=
  match f kind ns with
  | .error e => ⟨acc.nonEmptyKinds, acc.failedKinds ++ [(kind, e)]⟩
  | .ok n => if n > 0 then ⟨acc.nonEmptyKinds ++ [(kind, n)], acc.failedKinds⟩ else acc

/-- The census loop over the full fixed kind table. -/
def census (f : String → String → Except String Nat) (ns : String) : CensusResult :=
  monitoredKinds.foldl (censusStep f ns) ⟨[], []⟩

/-- Go `%v` rendering of a slice of strings: space-separated inside
square brackets. -/
def goStringList (xs : List String) : String :=
  "[" ++ String.intercalate " " xs ++ "]"

/-- `fmt.Sprintf("%s(%d)", kind, num)` for a non-empty kind entry. -/
def fmtNonEmpty (p : String × Nat) : String :=
  p.1 ++ "(" ++ toString p.2 ++ ")"

/-- `fmt.Errorf("error listing %s, %v", kind, err)` for a failed kind
entry. -/
def fmtFailed (p : String × String) : String :=
  "error listing " ++ p.1 ++ ", " ++ p.2

/-- The non-empty-kinds sentence of the denial reason (line 151). -/
def nonEmptySentence (ns : String) (xs : List String) : String :=
  "The namespace " ++ ns ++
    " you are trying to remove contains one or more of these resources: " ++
    goStringList xs ++ ". Please delete them and try again."

/-- The failed-kinds sentence of the denial reason (line 154). -/
def failedSentence (ns : String) (xs : List String) : String :=
  "The following error(s) occurred while validating the DELETE operation on the namespace " ++
    ns ++ ": " ++ goStringList xs ++ "."

/-- The trailing bypass instruction appended to every census denial
(line 157). -/
def bypassWarning (ns : String) : String :=
  " WARNING: If you know what you are doing, run `kubectl annotate namespace " ++
    ns ++ " " ++ bypassAnnotationKey ++
    "=true` to bypass this policy check."

/-- `validateNamespaceDeletion`: run the census, format the two lists,
and return `some errStr` (the Go non-nil error) when anything was
found or failed, `none` otherwise. The Go loop formats each entry as
it is appended; here the census collects the pairs and the formatting
is applied pointwise afterwards, which produces the same two string
lists. -/
def validateNamespaceDeletion (f : String → String → Except String Nat)
    (ns : String) : Option String :=
  let r := census f ns
  let nonEmptyList := r.nonEmptyKinds.map fmtNonEmpty
  let errList := r.failedKinds.map fmtFailed
  let errStr :=
    (if nonEmptyList.length > 0 then nonEmptySentence ns nonEmptyList else "") ++
    (if errList.length > 0 then failedSentence ns errList else "")
  if errStr ≠ "" then some (errStr ++ bypassWarning ns) else none

/-- The record the census keeps for kind `k` in `nonEmptyKinds`: the
pair `(k, n)` exactly when the counter succeeds with a positive `n`. -/
def okEntry (f : String → String → Except String Nat) (ns k : String) :
    Option (String × Nat) :=
  match f k ns with
  | .ok n => if n > 0 then some (k, n) else none
  | .error _ => none

/-- The record the census keeps for kind `k` in `failedKinds`: the pair
`(k, e)` exactly when the counter fails with error `e`. -/
def errEntry (f : String → String → Except String Nat) (ns k : String) :
    Option (String × String) :=
  match f k ns with
  | .ok _ => none
  | .error e => some (k, e)

/-- Whether the counter of kind `k` succeeds with a positive count. -/
def okPos (f : String → String → Except String Nat) (ns k : String) : Bool :=
  match f k ns with
  | .ok n => decide (n > 0)
  | .error _ => false

/-- Whether the counter of kind `k` fails. -/
def isFailed (f : String → String → Except String Nat) (ns k : String) : Bool :=
  match f k ns with
  | .ok _ => false
  | .error _ => true

/-- The verdict plus two observation flags recording whether the
namespace lookup and the census were reached on the taken path. -/
structure DecisionTrace where
  verdict : Verdict
  lookupInvoked : Bool
  censusInvoked : Bool
deriving DecidableEq

/-- The decision portion of `webhookHandler` (lines 188-236), with the
capabilities passed explicitly: the `admitAll` flag, the namespace
lookup `l`, and the per-kind counter capability `f`. Each branch
mirrors an early-return of the Go code; the flags record which
capabilities the taken path consulted. -/
def admissionDecision (admitAll : Bool) (l : String → LookupResult)
    (f : String → String → Except String Nat) (req : AdmissionRequest) :
    DecisionTrace :=
  if admitAll then
    ⟨⟨true, ""⟩, false, false⟩
  else if req.resource ≠ namespaceResourceType then
    ⟨⟨false, "Incoming resource is not a Namespace: " ++ gvrString req.resource⟩,
      false, false⟩
  else if req.operation ≠ deleteOperation then
    ⟨⟨false, "Incoming operation is " ++ req.operation ++ " on namespace " ++
        req.name ++ ". Only DELETE is currently supported."⟩, false, false⟩
  else
    match l req.name with
    | .notFound _ => ⟨⟨true, ""⟩, true, false⟩
    | .otherError e =>
        ⟨⟨false, "Error occurred while retrieving the namespace " ++ req.name ++
            ": " ++ e⟩, true, false⟩
    | .found annots =>
        if bypassSet annots then
          ⟨⟨true, ""⟩, true, false⟩
        else
          match validateNamespaceDeletion f req.name with
          | some errStr => ⟨⟨false, errStr⟩, true, true⟩
          | none => ⟨⟨true, ""⟩, true, true⟩

/-- `webhookHandler` from the body decode onward (lines 177-236): the
body is the decode result of the request body; a decode failure is
answered with the denial of lines 180-183, otherwise the decision
logic runs. -/
def webhookHandler (admitAll : Bool) (l : String → LookupResult)
    (f : String → String → Except String Nat)
    (body : Except String AdmissionRequest) : Verdict :=
  match body with
  | .error e =>
      ⟨false, "Failed to decode the request body json into an AdmissionReview resource: " ++ e⟩
  | .ok req => (admissionDecision admitAll l f req).verdict

/-! Concrete capabilities and requests used to exercise the theorems
on closed inputs. -/

/-- Counters for a namespace holding 2 pods and 1 service. -/
def exCountersBusy : String → String → Except String Nat :=
  fun k _ => if k = "pods" then .ok 2 else if k = "services" then .ok 1 else .ok 0

/-- Counters for a fully clean namespace. -/
def exCountersZero : String → String → Except String Nat :=
  fun _ _ => .ok 0

/-- Counters that fail for every kind. -/
def exCountersFail : String → String → Except String Nat :=
  fun k _ => .error ("boom " ++ k)

/-- Lookup returning a namespace with an empty annotation map. -/
def exLookupPlain : String → LookupResult :=
  fun _ => .found (some [])

/-- Lookup returning a namespace carrying the bypass annotation. -/
def exLookupBypass : String → LookupResult :=
  fun _ => .found (some [(bypassAnnotationKey, "true")])

/-- Lookup failing with a not-found error. -/
def exLookupNF : String → LookupResult :=
  fun _ => .notFound "namespace not found"

/-- Lookup failing with a non-not-found error. -/
def exLookupBoom : String → LookupResult :=
  fun _ => .otherError "connection refused"

/-- A Delete request on the namespaces resource for namespace ns3. -/
def exReqDel : AdmissionRequest :=
  ⟨"DELETE", namespaceResourceType, "ns3"⟩

/-- A Delete request whose resource type is pods, not namespaces. -/
def exReqPods : AdmissionRequest :=
  ⟨"DELETE", ⟨"", "v1", "pods"⟩, "ns1"⟩

/-- A Create request on the namespaces resource. -/
def exReqCreate : AdmissionRequest :=
  ⟨"CREATE", namespaceResourceType, "ns1"⟩

/-! String helpers. -/

/-- A concatenation of strings is empty only when both halves are. -/
theorem append_eq_empty (a b : String) : a ++ b = "" ↔ a = "" ∧ b = "" := by
  constructor
  · intro h
    have h2 : a.data ++ b.data = ([] : List Char) := by
      have h3 := congrArg String.data h
      simpa [String.data_append] using h3
    rcases List.append_eq_nil.mp h2 with ⟨ha, hb⟩
    exact ⟨String.ext ha, String.ext hb⟩
  · rintro ⟨rfl, rfl⟩
    rfl

/-- A concatenation with a non-empty left half is non-empty. -/
theorem left_ne_empty_append (a b : String) (h : a ≠ "") : a ++ b ≠ "" :=
  fun hc => h ((append_eq_empty a b).mp hc).1

/-- A concatenation with a non-empty right half is non-empty. -/
theorem right_ne_empty_append (a b : String) (h : b ≠ "") : a ++ b ≠ "" :=
  fun hc => h ((append_eq_empty a b).mp hc).2

/-- The non-empty-kinds sentence is never the empty string. -/
theorem nonEmptySentence_ne (ns : String) (xs : List String) :
    nonEmptySentence ns xs ≠ "" := by
  unfold nonEmptySentence
  apply left_ne_empty_append
  apply left_ne_empty_append
  apply left_ne_empty_append
  apply left_ne_empty_append
  decide

/-- The failed-kinds sentence is never the empty string. -/
theorem failedSentence_ne (ns : String) (xs : List String) :
    failedSentence ns xs ≠ "" := by
  unfold failedSentence
  apply left_ne_empty_append
  apply left_ne_empty_append
  apply left_ne_empty_append
  apply left_ne_empty_append
  decide

/-- The bypass warning is never the empty string. -/
theorem bypassWarning_ne (ns : String) : bypassWarning ns ≠ "" := by
  unfold bypassWarning
  apply left_ne_empty_append
  apply left_ne_empty_append
  apply left_ne_empty_append
  apply left_ne_empty_append
  decide

/-! Census fold characterization. -/

/-- Folding the census step collects the positive-count entries in
traversal order, appended to the accumulator. -/
theorem censusFold_nonEmpty (f : String → String → Except String Nat)
    (ns : String) (ks : List String) (acc : CensusResult) :
    (ks.foldl (censusStep f ns) acc).nonEmptyKinds
      = acc.nonEmptyKinds ++ ks.filterMap (okEntry f ns) := by
  induction ks generalizing acc with
  | nil => simp
  | cons k ks ih =>
    simp only [List.foldl_cons, List.filterMap_cons]
    cases hf : f k ns with
    | error e => simp [censusStep, hf, ih, okEntry]
    | ok n =>
      by_cases hn : n > 0
      · simp [censusStep, hf, hn, ih, okEntry]
      · simp [censusStep, hf, hn, ih, okEntry]

/-- Folding the census step collects the failed entries in traversal
order, appended to the accumulator. -/
theorem censusFold_failed (f : String → String → Except String Nat)
    (ns : String) (ks : List String) (acc : CensusResult) :
    (ks.foldl (censusStep f ns) acc).failedKinds
      = acc.failedKinds ++ ks.filterMap (errEntry f ns) := by
  induction ks generalizing acc with
  | nil => simp
  | cons k ks ih =>
    simp only [List.foldl_cons, List.filterMap_cons]
    cases hf : f k ns with
    | error e => simp [censusStep, hf, ih, errEntry]
    | ok n =>
      by_cases hn : n > 0
      · simp [censusStep, hf, hn, ih, errEntry]
      · simp [censusStep, hf, hn, ih, errEntry]

/-- Closed form of the non-empty list of the census. -/
theorem census_nonEmpty_eq (f : String → String → Except String Nat) (ns : String) :
    (census f ns).nonEmptyKinds = monitoredKinds.filterMap (okEntry f ns) := by
  simpa using censusFold_nonEmpty f ns monitoredKinds ⟨[], []⟩

/-- Closed form of the failed list of the census. -/
theorem census_failed_eq (f : String → String → Except String Nat) (ns : String) :
    (census f ns).failedKinds = monitoredKinds.filterMap (errEntry f ns) := by
  simpa using censusFold_failed f ns monitoredKinds ⟨[], []⟩

/-- First components of the collected positive entries: the kinds whose
counter succeeded with a positive count, in order. -/
theorem filterMap_okEntry_fst (f : String → String → Except String Nat)
    (ns : String) (ks : List String) :
    (ks.filterMap (okEntry f ns)).map Prod.fst = ks.filter (okPos f ns) := by
  induction ks with
  | nil => rfl
  | cons k ks ih =>
    simp only [List.filterMap_cons, List.filter_cons]
    cases hf : f k ns with
    | error e => simp [okEntry, okPos, hf, ih]
    | ok n =>
      by_cases hn : n > 0
      · simp [okEntry, okPos, hf, hn, ih]
      · simp [okEntry, okPos, hf, hn, ih]

/-- First components of the collected failed entries: the kinds whose
counter failed, in order. -/
theorem filterMap_errEntry_fst (f : String → String → Except String Nat)
    (ns : String) (ks : List String) :
    (ks.filterMap (errEntry f ns)).map Prod.fst = ks.filter (isFailed f ns) := by
  induction ks with
  | nil => rfl
  | cons k ks ih =>
    simp only [List.filterMap_cons, List.filter_cons]
    cases hf : f k ns with
    | error e => simp [errEntry, isFailed, hf, ih]
    | ok n => simp [errEntry, isFailed, hf, ih]

/-- The monitored kind labels are pairwise distinct. -/
theorem monitoredKinds_nodup : monitoredKinds.Nodup := by
  decide

/-! Validation outcome lemmas. -/

/-- A clean census (both lists empty) makes the validation succeed. -/
theorem validate_clean (f : String → String → Except String Nat) (ns : String)
    (h1 : (census f ns).nonEmptyKinds = [])
    (h2 : (census f ns).failedKinds = []) :
    validateNamespaceDeletion f ns = none := by
  simp [validateNamespaceDeletion, h1, h2]

/-- A dirty census (some list non-empty) makes the validation fail with
exactly the concatenated message: the non-empty-kinds sentence when
present, then the failed-kinds sentence when present, then the bypass
warning. -/
theorem validate_dirty (f : String → String → Except String Nat) (ns : String)
    (h : (census f ns).nonEmptyKinds ≠ [] ∨ (census f ns).failedKinds ≠ []) :
    validateNamespaceDeletion f ns = some
      (((if (census f ns).nonEmptyKinds ≠ [] then
            nonEmptySentence ns ((census f ns).nonEmptyKinds.map fmtNonEmpty)
          else "") ++
        (if (census f ns).failedKinds ≠ [] then
            failedSentence ns ((census f ns).failedKinds.map fmtFailed)
          else "")) ++
       bypassWarning ns) := by
  rcases eq_or_ne (census f ns).nonEmptyKinds [] with hA | hA <;>
    rcases eq_or_ne (census f ns).failedKinds [] with hB | hB
  · exact absurd h (by simp [hA, hB])
  all_goals
    simp [validateNamespaceDeletion, hA, hB, List.length_pos, append_eq_empty,
      nonEmptySentence_ne, failedSentence_ne]

/-- Any error the validation returns is a non-empty string. -/
theorem validate_some_ne (f : String → String → Except String Nat) (ns s : String)
    (h : validateNamespaceDeletion f ns = some s) : s ≠ "" := by
  rcases eq_or_ne (census f ns).nonEmptyKinds [] with hA | hA <;>
    rcases eq_or_ne (census f ns).failedKinds [] with hB | hB
  · rw [validate_clean f ns hA hB] at h
    exact absurd h (by simp)
  all_goals
    rw [validate_dirty f ns (by tauto)] at h
    have hs := Option.some.inj h
    subst hs
    exact right_ne_empty_append _ _ (bypassWarning_ne ns)

/-- Folding the census step is determined by the counter responses on
the queried namespace. -/
theorem censusFold_ext (f1 f2 : String → String → Except String Nat) (ns : String)
    (h : ∀ k, f1 k ns = f2 k ns) :
    ∀ (ks : List String) (acc : CensusResult),
      ks.foldl (censusStep f1 ns) acc = ks.foldl (censusStep f2 ns) acc := by
  intro ks
  induction ks with
  | nil => intro acc; rfl
  | cons k ks ih =>
    intro acc
    simp only [List.foldl_cons]
    rw [show censusStep f1 ns acc k = censusStep f2 ns acc k from by
      simp [censusStep, h k]]
    exact ih _

/-- The census is determined by the counter responses on the queried
namespace. -/
theorem census_ext (f1 f2 : String → String → Except String Nat) (ns : String)
    (h : ∀ k, f1 k ns = f2 k ns) : census f1 ns = census f2 ns :=
  censusFold_ext f1 f2 ns h monitoredKinds ⟨[], []⟩

/-- The validation is determined by the counter responses on the
queried namespace. -/
theorem validate_ext (f1 f2 : String → String → Except String Nat) (ns : String)
    (h : ∀ k, f1 k ns = f2 k ns) :
    validateNamespaceDeletion f1 ns = validateNamespaceDeletion f2 ns := by
  unfold validateNamespaceDeletion
  rw [census_ext f1 f2 ns h]

/-! Claim theorems. -/

/-- Claim C1: for a well-formed Delete request on the namespaces
resource (admit-all disabled, no bypass annotation, lookup succeeded),
the verdict is allow with an empty reason exactly when the census left
both lists empty; otherwise it is deny with the reason concatenating
the non-empty-kinds sentence when present, then the failed-kinds
sentence when present, then always the trailing bypass instruction. -/
theorem delete_verdict_census (l : String → LookupResult)
    (f : String → String → Except String Nat) (req : AdmissionRequest)
    (annots : Option (List (String × String)))
    (hres : req.resource = namespaceResourceType)
    (hop : req.operation = deleteOperation)
    (hl : l req.name = LookupResult.found annots)
    (hb : bypassSet annots = false) :
    ((admissionDecision false l f req).verdict = ⟨true, ""⟩ ↔
      ((census f req.name).nonEmptyKinds = [] ∧
        (census f req.name).failedKinds = [])) ∧
    (((census f req.name).nonEmptyKinds ≠ [] ∨
        (census f req.name).failedKinds ≠ []) →
      (admissionDecision false l f req).verdict =
        ⟨false,
          ((if (census f req.name).nonEmptyKinds ≠ [] then
              nonEmptySentence req.name
                ((census f req.name).nonEmptyKinds.map fmtNonEmpty)
            else "") ++
           (if (census f req.name).failedKinds ≠ [] then
              failedSentence req.name
                ((census f req.name).failedKinds.map fmtFailed)
            else "")) ++
          bypassWarning req.name⟩) := by
  constructor
  · rcases eq_or_ne (census f req.name).nonEmptyKinds [] with hA | hA <;>
      rcases eq_or_ne (census f req.name).failedKinds [] with hB | hB
    · simp [admissionDecision, hres, hop, hl, hb, validate_clean f req.name hA hB, hA, hB]
    all_goals
      simp [admissionDecision, hres, hop, hl, hb, validate_dirty f req.name (by tauto),
        hA, hB]
  · intro h
    simp [admissionDecision, hres, hop, hl, hb, validate_dirty f req.name h]

/-- Claim C1 witness: a namespace with 2 pods and 1 service is denied. -/
theorem delete_verdict_census_witness :
    (census exCountersBusy "ns3").nonEmptyKinds ≠ [] ∧
    (admissionDecision false exLookupPlain exCountersBusy exReqDel).verdict.allowed = false := by
  have h := delete_verdict_census exLookupPlain exCountersBusy exReqDel (some [])
    rfl rfl rfl rfl
  have hne : (census exCountersBusy "ns3").nonEmptyKinds ≠ [] := by decide
  have h2 := h.2 (Or.inl hne)
  exact ⟨hne, by rw [h2]⟩

/-- Claim C2: a well-formed Delete request on the namespaces resource
whose namespace maps the bypass key to exactly "true" is allowed, and
the census is never invoked on that path. -/
theorem bypass_allows (l : String → LookupResult)
    (f : String → String → Except String Nat) (req : AdmissionRequest)
    (m : List (String × String))
    (hres : req.resource = namespaceResourceType)
    (hop : req.operation = deleteOperation)
    (hl : l req.name = LookupResult.found (some m))
    (hb : mapGet m bypassAnnotationKey = "true") :
    admissionDecision false l f req = ⟨⟨true, ""⟩, true, false⟩ := by
  simp [admissionDecision, hres, hop, hl, bypassSet, hb]

/-- Claim C2 witness: the bypass-annotated namespace is allowed even
when every counter would fail. -/
theorem bypass_allows_witness :
    admissionDecision false exLookupBypass exCountersFail exReqDel =
      ⟨⟨true, ""⟩, true, false⟩ :=
  bypass_allows exLookupBypass exCountersFail exReqDel
    [(bypassAnnotationKey, "true")] rfl rfl rfl rfl

/-- Claim C3: a request whose resource-type descriptor is not exactly
(group "", version "v1", resource "namespaces") is denied with a reason
naming the unexpected resource type, and neither the namespace lookup
nor the census is invoked. -/
theorem wrong_resource_denied (l : String → LookupResult)
    (f : String → String → Except String Nat) (req : AdmissionRequest)
    (h : req.resource ≠ namespaceResourceType) :
    admissionDecision false l f req =
      ⟨⟨false, "Incoming resource is not a Namespace: " ++ gvrString req.resource⟩,
        false, false⟩ := by
  simp [admissionDecision, h]

/-- Claim C3 witness: a Delete request on the pods resource type. -/
theorem wrong_resource_denied_witness :
    exReqPods.resource ≠ namespaceResourceType ∧
    admissionDecision false exLookupPlain exCountersZero exReqPods =
      ⟨⟨false, "Incoming resource is not a Namespace: " ++ gvrString exReqPods.resource⟩,
        false, false⟩ :=
  ⟨by decide, wrong_resource_denied exLookupPlain exCountersZero exReqPods (by decide)⟩

/-- Claim C4: a request on the namespaces resource whose operation is
not Delete is denied with a reason naming the unsupported operation and
the target namespace name. -/
theorem wrong_operation_denied (l : String → LookupResult)
    (f : String → String → Except String Nat) (req : AdmissionRequest)
    (hres : req.resource = namespaceResourceType)
    (hop : req.operation ≠ deleteOperation) :
    admissionDecision false l f req =
      ⟨⟨false, "Incoming operation is " ++ req.operation ++ " on namespace " ++
          req.name ++ ". Only DELETE is currently supported."⟩, false, false⟩ := by
  simp [admissionDecision, hres, hop]

/-- Claim C4 witness: a Create request on the namespaces resource. -/
theorem wrong_operation_denied_witness :
    exReqCreate.operation ≠ deleteOperation ∧
    admissionDecision false exLookupPlain exCountersZero exReqCreate =
      ⟨⟨false, "Incoming operation is " ++ exReqCreate.operation ++ " on namespace " ++
          exReqCreate.name ++ ". Only DELETE is currently supported."⟩, false, false⟩ :=
  ⟨by decide, wrong_operation_denied exLookupPlain exCountersZero exReqCreate rfl (by decide)⟩

/-- Claim C5: on a well-formed Delete request, a not-found lookup
failure yields allow with an empty reason, any other lookup failure
yields deny with the lookup error text in the reason, and the census is
not invoked in either failure case. -/
theorem lookup_failure_paths (l : String → LookupResult)
    (f : String → String → Except String Nat) (req : AdmissionRequest)
    (hres : req.resource = namespaceResourceType)
    (hop : req.operation = deleteOperation) :
    (∀ m, l req.name = LookupResult.notFound m →
      admissionDecision false l f req = ⟨⟨true, ""⟩, true, false⟩) ∧
    (∀ e, l req.name = LookupResult.otherError e →
      admissionDecision false l f req =
        ⟨⟨false, "Error occurred while retrieving the namespace " ++ req.name ++
            ": " ++ e⟩, true, false⟩) := by
  constructor
  · intro m hm
    simp [admissionDecision, hres, hop, hm]
  · intro e he
    simp [admissionDecision, hres, hop, he]

/-- Claim C5 witness: a not-found lookup is allowed, a connection
failure is denied. -/
theorem lookup_failure_paths_witness :
    admissionDecision false exLookupNF exCountersZero exReqDel =
      ⟨⟨true, ""⟩, true, false⟩ ∧
    admissionDecision false exLookupBoom exCountersZero exReqDel =
      ⟨⟨false, "Error occurred while retrieving the namespace " ++ exReqDel.name ++
          ": " ++ "connection refused"⟩, true, false⟩ :=
  ⟨(lookup_failure_paths exLookupNF exCountersZero exReqDel rfl rfl).1
      "namespace not found" rfl,
    (lookup_failure_paths exLookupBoom exCountersZero exReqDel rfl rfl).2
      "connection refused" rfl⟩

/-- Claim C6: the census consults every monitored kind in declared
order regardless of earlier failures or non-zero counts: its non-empty
list is exactly the positive-count entries of the declared kind list in
order, and its failed list is exactly the failed entries of the
declared kind list in order; as a total function it never fails as a
whole. -/
theorem census_full_scan (f : String → String → Except String Nat) (ns : String) :
    (census f ns).nonEmptyKinds = monitoredKinds.filterMap (okEntry f ns) ∧
    (census f ns).failedKinds = monitoredKinds.filterMap (errEntry f ns) :=
  ⟨census_nonEmpty_eq f ns, census_failed_eq f ns⟩

/-- Claim C7: with the admit-all flag enabled every request is allowed
with no further checks: neither the lookup nor the census is invoked. -/
theorem admit_all_allows (l : String → LookupResult)
    (f : String → String → Except String Nat) (req : AdmissionRequest) :
    admissionDecision true l f req = ⟨⟨true, ""⟩, false, false⟩ :=
  rfl

/-- Claim C8: every produced verdict pairs a false allowed flag with a
non-empty reason and a true allowed flag with an empty reason, the
decode-failure path included. -/
theorem denial_has_reason (a : Bool) (l : String → LookupResult)
    (f : String → String → Except String Nat)
    (body : Except String AdmissionRequest) :
    ((webhookHandler a l f body).allowed = false →
      (webhookHandler a l f body).reason ≠ "") ∧
    ((webhookHandler a l f body).allowed = true →
      (webhookHandler a l f body).reason = "") := by
  cases body with
  | error e =>
    constructor
    · intro _
      exact left_ne_empty_append _ _ (by decide)
    · intro h
      simp [webhookHandler] at h
  | ok req =>
    have hw : webhookHandler a l f (Except.ok req) =
        (admissionDecision a l f req).verdict := rfl
    rw [hw]
    cases a with
    | true => exact ⟨fun h => by simp [admissionDecision] at h, fun _ => rfl⟩
    | false =>
      by_cases hres : req.resource = namespaceResourceType
      · by_cases hop : req.operation = deleteOperation
        · cases hl : l req.name with
          | notFound m =>
            simp [admissionDecision, hres, hop, hl]
          | otherError e =>
            simp [admissionDecision, hres, hop, hl]
            apply left_ne_empty_append
            apply left_ne_empty_append
            apply left_ne_empty_append
            decide
          | found annots =>
            cases hb : bypassSet annots with
            | true => simp [admissionDecision, hres, hop, hl, hb]
            | false =>
              cases hv : validateNamespaceDeletion f req.name with
              | none => simp [admissionDecision, hres, hop, hl, hb, hv]
              | some s =>
                simp [admissionDecision, hres, hop, hl, hb, hv]
                exact validate_some_ne f req.name s hv
        · simp [admissionDecision, hres, hop]
          apply left_ne_empty_append
          apply left_ne_empty_append
          apply left_ne_empty_append
          apply left_ne_empty_append
          decide
      · simp [admissionDecision, hres]
        apply left_ne_empty_append
        decide

/-- Claim C8 witness: a busy namespace yields a denial whose reason is
non-empty. -/
theorem denial_has_reason_witness :
    (webhookHandler false exLookupPlain exCountersBusy (Except.ok exReqDel)).allowed
      = false ∧
    (webhookHandler false exLookupPlain exCountersBusy (Except.ok exReqDel)).reason
      ≠ "" := by
  have h := denial_has_reason false exLookupPlain exCountersBusy (Except.ok exReqDel)
  have ha : (webhookHandler false exLookupPlain exCountersBusy
      (Except.ok exReqDel)).allowed = false := by decide
  exact ⟨ha, h.1 ha⟩

/-- Claim C9: the decision is determined by the request together with
the capability responses it can consult — two runs over capabilities
that answer identically on the target namespace produce identical
verdicts, reasons and traces; as a pure function it mutates no state
visible to later invocations. -/
theorem decision_deterministic (a : Bool) (l1 l2 : String → LookupResult)
    (f1 f2 : String → String → Except String Nat) (req : AdmissionRequest)
    (hl : l1 req.name = l2 req.name)
    (hf : ∀ k, f1 k req.name = f2 k req.name) :
    admissionDecision a l1 f1 req = admissionDecision a l2 f2 req := by
  have hv := validate_ext f1 f2 req.name hf
  unfold admissionDecision
  simp only [hl, hv]

/-- Claim C9 witness: the determinism theorem applied to one concrete
run against itself. -/
theorem decision_deterministic_witness :
    admissionDecision false exLookupPlain exCountersBusy exReqDel =
      admissionDecision false exLookupPlain exCountersBusy exReqDel :=
  decision_deterministic false exLookupPlain exLookupPlain exCountersBusy
    exCountersBusy exReqDel rfl (fun _ => rfl)

/-- Claim C10: across one census result, each monitored kind appears at
most once in the two lists combined — the kind labels of
nonEmptyKinds followed by those of failedKinds form a duplicate-free
list, so the lists are disjoint and individually duplicate-free. -/
theorem census_kinds_nodup (f : String → String → Except String Nat) (ns : String) :
    ((census f ns).nonEmptyKinds.map Prod.fst ++
      (census f ns).failedKinds.map Prod.fst).Nodup := by
  rw [census_nonEmpty_eq, census_failed_eq, filterMap_okEntry_fst,
    filterMap_errEntry_fst]
  refine List.Nodup.append (List.Nodup.filter _ monitoredKinds_nodup)
    (List.Nodup.filter _ monitoredKinds_nodup) ?_
  intro x hx hy
  have h1 := (List.mem_filter.mp hx).2
  have h2 := (List.mem_filter.mp hy).2
  cases hf : f x ns with
  | ok n => simp [isFailed, hf] at h2
  | error e => simp [okPos, hf] at h1
